import Mathlib

/-!
Verification of the natural-language specification of `dunder_check.py`
(the `BuiltinTypeInspector` command-line utility) against a shallow
embedding of its code in Lean.

Modelling conventions:
* Python type handles (the values of `self.builtin_types`) are an
  enumerated type `PyType` with one constructor per registry entry.
* The host runtime reflection facilities (`dir`, `callable`, `hasattr`,
  `inspect.signature`, `inspect.getdoc`, `__module__`, `__mro__`,
  `__doc__`) are not part of the repository; they are modelled as an
  oracle record `TypeEnv`, quantified over in the theorems.  A possible
  exception raised by `getattr` or `inspect.signature` is modelled as
  the oracle returning `none` / `false`.
* Each `print(x)` call is modelled as appending the string `x` to an
  output list; standard input is modelled as a list of lines, and
  `input(...).strip()` as taking (and trimming) the head line.
* Python strings that contain a quote character, a brace or a backtick
  are written with the escapes \x27, \x7b, \x7d, \x60.
-/

/-- The seventeen built-in type handles stored in `self.builtin_types`. -/
inductive PyType where
  | str | int | float | complex | list | tuple | dict | set
  | frozenset | bool | bytes | bytearray | memoryview | range
  | slice | type | object
deriving DecidableEq, Repr

/-- The mutable fields of a `BuiltinTypeInspector` instance. -/
structure InspectorState where
  builtin_types : List (String × PyType)
  current_type : Option PyType
  current_type_name : Option String
deriving DecidableEq, Repr

/-- Embedding of `BuiltinTypeInspector.__init__`: the registry literal (lines 9-27)
and the two `None` fields (lines 28-29). -/
def inspectorInit : InspectorState :=
  { builtin_types :=
      [("str", .str), ("int", .int), ("float", .float),
       ("complex", .complex), ("list", .list), ("tuple", .tuple),
       ("dict", .dict), ("set", .set), ("frozenset", .frozenset),
       ("bool", .bool), ("bytes", .bytes), ("bytearray", .bytearray),
       ("memoryview", .memoryview), ("range", .range), ("slice", .slice),
       ("type", .type), ("object", .object)]
    current_type := none
    current_type_name := none }

/-- Python `"=" * 100`. -/
def hline : String := String.mk (List.replicate 100 '=')

/-- Python `"-" * 100`. -/
def dline : String := String.mk (List.replicate 100 '-')

/-- Python `s.startswith(p)` (structural, so that it evaluates in the
kernel). -/
def pyStartsWith (s p : String) : Bool :=
  p.toList.isPrefixOf s.toList

/-- Python `s.endswith(p)`. -/
def pyEndsWith (s p : String) : Bool :=
  p.toList.reverse.isPrefixOf s.toList.reverse

/-- Python `s.lower()`. -/
def pyLower (s : String) : String :=
  String.mk (s.toList.map Char.toLower)

/-- Python `s.strip()`: drop whitespace from both ends. -/
def pyStrip (s : String) : String :=
  String.mk
    (((s.toList.dropWhile Char.isWhitespace).reverse.dropWhile
        Char.isWhitespace).reverse)

/-- Insert a string into a sorted list (code-point order). -/
def insertSorted (x : String) : List String → List String
  | [] => [x]
  | y :: t => if x ≤ y then x :: y :: t else y :: insertSorted x t

/-- Python `sorted` on a list of strings (code-point order), as a
structural insertion sort. -/
def sortedStrings (l : List String) : List String :=
  l.foldr insertSorted []

/-- Embedding of `BuiltinTypeInspector.load_type` (lines 51-61).
Returns (return value, printed lines, new state). -/
def load_type (s : InspectorState) (type_name : String) :
    Bool × List String × InspectorState :=
  match s.builtin_types.lookup type_name with
  | some t =>
      (true,
       ["✅ Successfully loaded type \x27" ++ type_name ++ "\x27"],
       { s with current_type := some t, current_type_name := some type_name })
  | none =>
      (false,
       ["❌ Error: \x27" ++ type_name ++ "\x27 is not a recognized built-in type",
        "   Available types: " ++
          String.intercalate ", " (sortedStrings (s.builtin_types.map Prod.fst))],
       s)

/-- A type object as seen by `categorize_methods`: its `dir` listing and
its `callable(getattr(...))` facts. -/
structure PyTypeObj where
  dirList : List String
  isCallable : String → Bool

/-- The seven buckets of `categorize_methods` (lines 65-73). -/
structure MethodCategories where
  constructors : List String
  magic_methods : List String
  query_methods : List String
  mutation_methods : List String
  conversion_methods : List String
  operators : List String
  other_methods : List String
deriving DecidableEq, Repr

def emptyCategories : MethodCategories :=
  ⟨[], [], [], [], [], [], []⟩

/-- Names of the seven buckets. -/
inductive MethodCategory where
  | constructors | magic_methods | query_methods | mutation_methods
  | conversion_methods | operators | other_methods
deriving DecidableEq, Repr

def MethodCategories.get (cats : MethodCategories) :
    MethodCategory → List String
  | .constructors => cats.constructors
  | .magic_methods => cats.magic_methods
  | .query_methods => cats.query_methods
  | .mutation_methods => cats.mutation_methods
  | .conversion_methods => cats.conversion_methods
  | .operators => cats.operators
  | .other_methods => cats.other_methods

/-- Append `name` to the bucket `c` (`categories[...].append(name)`). -/
def MethodCategories.push (cats : MethodCategories) (c : MethodCategory)
    (name : String) : MethodCategories :=
  match c with
  | .constructors => { cats with constructors := cats.constructors ++ [name] }
  | .magic_methods => { cats with magic_methods := cats.magic_methods ++ [name] }
  | .query_methods => { cats with query_methods := cats.query_methods ++ [name] }
  | .mutation_methods => { cats with mutation_methods := cats.mutation_methods ++ [name] }
  | .conversion_methods => { cats with conversion_methods := cats.conversion_methods ++ [name] }
  | .operators => { cats with operators := cats.operators ++ [name] }
  | .other_methods => { cats with other_methods := cats.other_methods ++ [name] }

/-- The constructor-name list of line 85. -/
def constructor_names : List String :=
  ["__new__", "__init__", "__init_subclass__"]

/-- The operator-dunder list of lines 89-91. -/
def operator_dunders : List String :=
  ["__add__", "__sub__", "__mul__", "__truediv__", "__floordiv__",
   "__mod__", "__pow__", "__and__", "__or__", "__xor__", "__lshift__",
   "__rshift__", "__lt__", "__le__", "__gt__", "__ge__", "__eq__", "__ne__"]

/-- The conversion-name list of line 100. -/
def conversion_names : List String :=
  ["hex", "bin", "oct", "encode", "decode"]

/-- The query keyword list of line 103. -/
def query_words : List String :=
  ["is", "has", "get", "find", "index", "count", "starts", "ends"]

/-- The mutation keyword list of line 106. -/
def mutation_words : List String :=
  ["add", "append", "extend", "insert", "remove", "pop", "clear",
   "update", "set", "del", "replace", "sort", "reverse"]

/-- Python substring containment on character lists (`pat in s`). -/
def charsSubstr : List Char → List Char → Bool
  | p, [] => p.isEmpty
  | p, c :: t => p.isPrefixOf (c :: t) || charsSubstr p t

/-- Python `pat in s` for strings. -/
def strContains (pat s : String) : Bool :=
  charsSubstr pat.toList s.toList

/-- The loop body of `categorize_methods` (lines 75-109) for one `name`. -/
def categorize_step (t : PyTypeObj) (cats : MethodCategories)
    (name : String) : MethodCategories :=
  if !(t.isCallable name) then cats
  else if pyStartsWith name "_" && !(pyStartsWith name "__" && pyEndsWith name "__") then
    cats
  else if pyStartsWith name "__" && pyEndsWith name "__" then
    if name ∈ constructor_names then
      { cats with constructors := cats.constructors ++ [name] }
    else if pyStartsWith name "__r" && pyEndsWith name "__" then
      { cats with operators := cats.operators ++ [name] }
    else if name ∈ operator_dunders then
      { cats with operators := cats.operators ++ [name] }
    else
      { cats with magic_methods := cats.magic_methods ++ [name] }
  else
    let method_lower := pyLower name
    if pyStartsWith name "to" || name ∈ conversion_names then
      { cats with conversion_methods := cats.conversion_methods ++ [name] }
    else if query_words.any (fun w => strContains w method_lower) then
      { cats with query_methods := cats.query_methods ++ [name] }
    else if mutation_words.any (fun w => strContains w method_lower) then
      { cats with mutation_methods := cats.mutation_methods ++ [name] }
    else
      { cats with other_methods := cats.other_methods ++ [name] }

/-- Embedding of `BuiltinTypeInspector.categorize_methods` (lines 63-111). -/
def categorize_methods (t : PyTypeObj) : MethodCategories :=
  t.dirList.foldl (categorize_step t) emptyCategories

/-- A name survives the two `continue` filters of lines 76-81:
callable, and not a single-underscore private name. -/
def method_eligible (t : PyTypeObj) (name : String) : Bool :=
  t.isCallable name &&
    !(pyStartsWith name "_" && !(pyStartsWith name "__" && pyEndsWith name "__"))

/-- The bucket the `if/elif` chain of lines 84-109 selects for an
eligible name. -/
def classify_method (name : String) : MethodCategory :=
  if pyStartsWith name "__" && pyEndsWith name "__" then
    if name ∈ constructor_names then .constructors
    else if pyStartsWith name "__r" && pyEndsWith name "__" then .operators
    else if name ∈ operator_dunders then .operators
    else .magic_methods
  else
    let method_lower := pyLower name
    if pyStartsWith name "to" || name ∈ conversion_names then .conversion_methods
    else if query_words.any (fun w => strContains w method_lower) then .query_methods
    else if mutation_words.any (fun w => strContains w method_lower) then .mutation_methods
    else .other_methods

/-- The host runtime reflection oracle.  `getattrOk t m = false` models
`getattr(t, m)` raising; `sigOf t m = none` models `inspect.signature`
raising; `docOf t m = none` models `inspect.getdoc` returning `None`. -/
structure TypeEnv where
  dirOf : PyType → List String
  callableOf : PyType → String → Bool
  hasattrOf : PyType → String → Bool
  getattrOk : PyType → String → Bool
  sigOf : PyType → String → Option String
  docOf : PyType → String → Option String
  moduleOf : PyType → String
  mroOf : PyType → List String
  typeDoc : PyType → Option String
  typeReprOf : PyType → String

/-- The `PyTypeObj` view of a type handle under an oracle. -/
def typeObjOf (env : TypeEnv) (t : PyType) : PyTypeObj :=
  ⟨env.dirOf t, env.callableOf t⟩

/-- Embedding of `BuiltinTypeInspector.get_method_signature` (lines 113-120): the
`try` body returns `str(inspect.signature(getattr(...)))`, the bare
`except` returns `"(...)"`. -/
def get_method_signature (env : TypeEnv) (t : PyType) (m : String) : String :=
  if env.getattrOk t m then
    match env.sigOf t m with
    | some sig => sig
    | none => "(...)"
  else "(...)"

/-- Embedding of `BuiltinTypeInspector.get_method_doc` (lines 122-133): first line of
the docstring truncated to 80 characters, `none` when the docstring is
absent or empty or any lookup fails (Python returns `None` there). -/
def get_method_doc (env : TypeEnv) (t : PyType) (m : String) : Option String :=
  if env.getattrOk t m then
    match env.docOf t m with
    | some d =>
        if d ≠ "" then
          let first_line := pyStrip ((d.splitOn "\n").headD "")
          some (String.mk (first_line.toList.take 80) ++
            (if first_line.length > 80 then "..." else ""))
        else none
    | none => none
  else none

/-- The `operator_map` literal of `analyze_type` (lines 217-224). -/
def operator_map : List (String × String) :=
  [("__add__", "+"), ("__sub__", "-"), ("__mul__", "*"), ("__truediv__", "/"),
   ("__floordiv__", "//"), ("__mod__", "%"), ("__pow__", "**"),
   ("__and__", "&"), ("__or__", "|"), ("__xor__", "^"),
   ("__lshift__", "<<"), ("__rshift__", ">>"),
   ("__lt__", "<"), ("__le__", "<="), ("__gt__", ">"), ("__ge__", ">="),
   ("__eq__", "=="), ("__ne__", "!=")]

/-- One `[i] name(sig)` line plus the optional `↳ doc` line (the bodies
of the per-method printing loops in `analyze_type`). -/
def method_lines (env : TypeEnv) (t : PyType) (p : Nat × String) : List String :=
  ["  [" ++ toString p.1 ++ "] " ++ p.2 ++ get_method_signature env t p.2] ++
    (match get_method_doc env t p.2 with
     | some d => ["      ↳ " ++ d]
     | none => [])

/-- A non-empty bucket printed with header, count, rule and sorted,
1-indexed method lines (the repeated pattern of `analyze_type`). -/
def method_section (env : TypeEnv) (t : PyType) (title : String)
    (names : List String) : List String :=
  if names.isEmpty then []
  else
    ["\n" ++ title ++ " (" ++ toString names.length ++ ")", dline] ++
      (((sortedStrings names).enumFrom 1).map (method_lines env t)).flatten

/-- The operators section of `analyze_type` (lines 213-234), which shows
the display symbol from `operator_map` when one exists. -/
def operator_section (env : TypeEnv) (t : PyType) (names : List String) :
    List String :=
  if names.isEmpty then []
  else
    ["\n⚡ OPERATOR OVERLOADS (" ++ toString names.length ++ ")", dline] ++
      (((sortedStrings names).enumFrom 1).map (fun p =>
        (match operator_map.lookup p.2 with
         | some op => ["  [" ++ toString p.1 ++ "] " ++ p.2 ++ " → " ++ op]
         | none => ["  [" ++ toString p.1 ++ "] " ++ p.2]) ++
        (match get_method_doc env t p.2 with
         | some d => ["      ↳ " ++ d]
         | none => []))).flatten

/-- Embedding of `BuiltinTypeInspector.analyze_type` (lines 135-256). -/
def analyze_type (env : TypeEnv) (s : InspectorState) :
    List String × InspectorState :=
  match s.current_type with
  | none => (["⚠️  No type loaded. Please load a type first."], s)
  | some t =>
      let tname := s.current_type_name.getD "None"
      let cats := categorize_methods (typeObjOf env t)
      let mro := env.mroOf t
      (["\n" ++ hline, "🔍 ANALYZING TYPE: " ++ tname, hline,
        "\n📍 TYPE INFORMATION", dline,
        "  Name: " ++ tname,
        "  Type: " ++ env.typeReprOf t,
        "  Module: " ++ env.moduleOf t] ++
       (if mro.length > 1 then
          ["  Inheritance chain:"] ++ mro.map (fun b => "    └─ " ++ b)
        else []) ++
       (match env.typeDoc t with
        | some d =>
            if d ≠ "" then
              ["\n  Description:", "    " ++ ((pyStrip d).splitOn "\n").headD ""]
            else []
        | none => []) ++
       method_section env t "🏗️  CONSTRUCTORS & INITIALIZATION" cats.constructors ++
       method_section env t "🔍 QUERY METHODS (don\x27t modify the object)" cats.query_methods ++
       method_section env t "🔧 MUTATION METHODS (modify the object)" cats.mutation_methods ++
       method_section env t "🔄 CONVERSION METHODS" cats.conversion_methods ++
       operator_section env t cats.operators ++
       method_section env t "✨ SPECIAL METHODS (magic methods)" cats.magic_methods ++
       method_section env t "📚 OTHER METHODS" cats.other_methods,
       s)

def example_str : String :=
  "\n🎯 PRACTICAL EXAMPLES FOR str\n\n# Creation\ns = \"hello world\"\ns = \x27single quotes\x27\ns = \x27\x27\x27multiline\nstring\x27\x27\x27\n\n# Common operations\ns.upper()              # \"HELLO WORLD\"\ns.capitalize()         # \"Hello world\"\ns.split()              # [\"hello\", \"world\"]\ns.replace(\"world\", \"python\")  # \"hello python\"\ns.find(\"world\")        # 6\ns.startswith(\"hello\")  # True\nlen(s)                 # 11\n\n# Formatting\nname = \"Alice\"\nf\"Hello \x7bname\x7d\"        # \"Hello Alice\"\n\"Hello \x7b\x7d\".format(name)  # \"Hello Alice\"\n\n# Useful methods\ns.strip()              # Remove whitespace\ns.isalpha()            # Check if alphabetic\ns.join([\x27a\x27, \x27b\x27])     # \"ahellob\"\n            "

def example_list : String :=
  "\n🎯 PRACTICAL EXAMPLES FOR list\n\n# Creation\nlst = [1, 2, 3]\nlst = list(range(5))   # [0, 1, 2, 3, 4]\n\n# Adding elements\nlst.append(4)          # Add to end\nlst.insert(0, 0)       # Insert at position\nlst.extend([5, 6])     # Add multiple\n\n# Removing elements\nlst.pop()              # Remove last\nlst.pop(0)             # Remove at index\nlst.remove(3)          # Remove first occurrence\nlst.clear()            # Remove all\n\n# Accessing\nlst[0]                 # First element\nlst[-1]                # Last element\nlst[1:3]               # Slice [start:end]\n\n# Common operations\nlen(lst)               # Length\nsorted(lst)            # Return sorted copy\nlst.sort()             # Sort in place\nlst.reverse()          # Reverse in place\nlst.count(2)           # Count occurrences\n            "

def example_dict : String :=
  "\n🎯 PRACTICAL EXAMPLES FOR dict\n\n# Creation\nd = \x7b\x27a\x27: 1, \x27b\x27: 2\x7d\nd = dict(a=1, b=2)\n\n# Accessing\nd[\x27a\x27]                 # Get value (KeyError if missing)\nd.get(\x27a\x27, 0)          # Get with default\nd.keys()               # All keys\nd.values()             # All values\nd.items()              # Key-value pairs\n\n# Modifying\nd[\x27c\x27] = 3             # Add/update\nd.update(\x7b\x27d\x27: 4\x7d)     # Update multiple\ndel d[\x27a\x27]             # Delete key\nd.pop(\x27b\x27)             # Remove and return\nd.clear()              # Remove all\n\n# Checking\n\x27a\x27 in d               # Check if key exists\nd.setdefault(\x27e\x27, 5)   # Get or set default\n            "

def example_set : String :=
  "\n🎯 PRACTICAL EXAMPLES FOR set\n\n# Creation\ns = \x7b1, 2, 3\x7d\ns = set([1, 2, 2, 3])  # \x7b1, 2, 3\x7d - duplicates removed\n\n# Adding/removing\ns.add(4)               # Add element\ns.update(\x7b5, 6\x7d)       # Add multiple\ns.remove(1)            # Remove (KeyError if missing)\ns.discard(1)           # Remove (no error)\ns.pop()                # Remove arbitrary element\n\n# Set operations\na = \x7b1, 2, 3\x7d\nb = \x7b2, 3, 4\x7d\na | b                  # Union: \x7b1, 2, 3, 4\x7d\na & b                  # Intersection: \x7b2, 3\x7d\na - b                  # Difference: \x7b1\x7d\na ^ b                  # Symmetric difference: \x7b1, 4\x7d\n\n# Checking\n2 in s                 # Membership test\na.issubset(b)          # Is a subset?\na.issuperset(b)        # Is a superset?\n            "

def example_int : String :=
  "\n🎯 PRACTICAL EXAMPLES FOR int\n\n# Creation\nx = 42\nx = int(\"42\")          # From string\nx = int(3.14)          # From float (truncates)\n\n# Operations\nx + 5                  # Addition\nx * 2                  # Multiplication\nx ** 2                 # Power\nx // 3                 # Floor division\nx % 5                  # Modulo\n\n# Conversions\nbin(x)                 # Binary: \"0b101010\"\nhex(x)                 # Hex: \"0x2a\"\noct(x)                 # Octal: \"0o52\"\n\n# Bit operations\nx & 15                 # Bitwise AND\nx | 8                  # Bitwise OR\nx ^ 3                  # Bitwise XOR\nx << 2                 # Left shift\nx >> 1                 # Right shift\n            "

def example_tuple : String :=
  "\n🎯 PRACTICAL EXAMPLES FOR tuple\n\n# Creation\nt = (1, 2, 3)\nt = 1, 2, 3            # Parentheses optional\nt = (1,)               # Single element (comma required)\n\n# Accessing\nt[0]                   # First element\nt[-1]                  # Last element\nt[1:3]                 # Slice\n\n# Operations\nlen(t)                 # Length\nt.count(2)             # Count occurrences\nt.index(3)             # Find index\nt1 + t2                # Concatenate\nt * 3                  # Repeat\n\n# Unpacking\na, b, c = t            # Unpack to variables\na, *rest = t           # Unpack with remainder\n            "

/-- The `examples` dict literal of `show_examples` (lines 264-426). -/
def examples : List (String × String) :=
  [("str", example_str), ("list", example_list), ("dict", example_dict),
   ("set", example_set), ("int", example_int), ("tuple", example_tuple)]

/-- Embedding of `BuiltinTypeInspector.show_examples` (lines 258-429). -/
def show_examples (s : InspectorState) : List String × InspectorState :=
  match s.current_type with
  | none => (["⚠️  No type loaded. Please load a type first."], s)
  | some _ =>
      let tname := s.current_type_name.getD "None"
      ([(examples.lookup tname).getD ("No examples available for " ++ tname)], s)

/-- Embedding of `BuiltinTypeInspector.inspect_method` (lines 431-463). -/
def inspect_method (env : TypeEnv) (s : InspectorState) (method_name : String) :
    List String × InspectorState :=
  match s.current_type with
  | none => (["⚠️  No type loaded. Please load a type first."], s)
  | some t =>
      let tname := s.current_type_name.getD "None"
      if !(env.hasattrOf t method_name) then
        (["❌ Method \x27" ++ method_name ++ "\x27 not found in type \x27" ++
            tname ++ "\x27"], s)
      else
        (["\n" ++ hline,
          "🔍 METHOD INSPECTION: " ++ tname ++ "." ++ method_name,
          hline] ++
         (match env.sigOf t method_name with
          | some sig =>
              ["\n📝 Signature:", "  " ++ tname ++ "." ++ method_name ++ sig]
          | none =>
              ["\n📝 Signature:", "  " ++ tname ++ "." ++ method_name ++ "(...)"]) ++
         (match env.docOf t method_name with
          | some d =>
              if d ≠ "" then
                ["\n📚 Documentation:"] ++
                  (d.splitOn "\n").map (fun line => "  " ++ line)
              else ["\n📚 Documentation: None available"]
          | none => ["\n📚 Documentation: None available"]),
         s)

/-- Embedding of `BuiltinTypeInspector.compare_types` (lines 465-498).  Python takes
`set(dir(...))`, modelled as `dedup` of the `dir` listing. -/
def compare_types (env : TypeEnv) (s : InspectorState) (n1 n2 : String) :
    List String × InspectorState :=
  match s.builtin_types.lookup n1, s.builtin_types.lookup n2 with
  | some t1, some t2 =>
      let methods1 := (env.dirOf t1).dedup
      let methods2 := (env.dirOf t2).dedup
      let common := methods1.filter (fun m => methods2.contains m)
      let only1 := methods1.filter (fun m => !(methods2.contains m))
      let only2 := methods2.filter (fun m => !(methods1.contains m))
      (["\n" ++ hline, "🔄 COMPARING: " ++ n1 ++ " vs " ++ n2, hline,
        "\n✅ Common methods (" ++ toString common.length ++ "):"] ++
       ((sortedStrings common).filter (fun m => !(pyStartsWith m "_"))).map
         (fun m => "  • " ++ m) ++
       ["\n📌 Only in " ++ n1 ++ " (" ++ toString only1.length ++ "):"] ++
       ((sortedStrings only1).filter (fun m => !(pyStartsWith m "_"))).map
         (fun m => "  • " ++ m) ++
       ["\n📌 Only in " ++ n2 ++ " (" ++ toString only2.length ++ "):"] ++
       ((sortedStrings only2).filter (fun m => !(pyStartsWith m "_"))).map
         (fun m => "  • " ++ m),
       s)
  | _, _ => (["❌ One or both types not recognized"], s)

/-- The `categories` dict literal of `list_available_types` (lines 37-44). -/
def type_categories : List (String × List String) :=
  [("Numeric Types", ["int", "float", "complex", "bool"]),
   ("Sequence Types", ["str", "list", "tuple", "range"]),
   ("Set Types", ["set", "frozenset"]),
   ("Mapping Types", ["dict"]),
   ("Binary Types", ["bytes", "bytearray", "memoryview"]),
   ("Other Types", ["slice", "type", "object"])]

/-- Embedding of `BuiltinTypeInspector.list_available_types` (lines 31-49). -/
def list_available_types (s : InspectorState) : List String × InspectorState :=
  (["\n" ++ hline, "🐍 AVAILABLE BUILT-IN TYPES", hline] ++
   (type_categories.map (fun cat =>
      ["\n📦 " ++ cat.1 ++ ":"] ++
        (cat.2.enumFrom 1).map (fun p => "  [" ++ toString p.1 ++ "] " ++ p.2))).flatten,
   s)

/-- Menu text printed by `show_menu` (lines 500-513); the final element
models the `input` prompt. -/
def show_menu_out : List String :=
  ["\n" ++ hline, "🎯 WHAT WOULD YOU LIKE TO DO?", hline,
   "\n  1. 🔍 Analyze a built-in type",
   "  2. 💡 Show practical examples",
   "  3. 🔎 Inspect a specific method",
   "  4. 🔄 Compare two types",
   "  5. 📋 List all available types",
   "  6. ❌ Exit"]

/-- Python `input(...).strip()` on the modelled stdin line stream. -/
def readLn : List String → String × List String
  | [] => ("", [])
  | h :: t => (pyStrip h, t)

/-- Outcome of one iteration of the `while True` loop of
`interactive_mode`: continue with a state, or break out of the loop. -/
inductive MenuOutcome where
  | cont (s : InspectorState)
  | done
deriving DecidableEq, Repr

/-- Embedding of one iteration of `BuiltinTypeInspector.interactive_mode`
(lines 515-557): menu display, choice dispatch, and the per-choice
reads and calls.  Returns the outcome, the printed lines and the
remaining stdin. -/
def menu_step (env : TypeEnv) (s : InspectorState) (stdin : List String) :
    MenuOutcome × List String × List String :=
  let (choice, r0) := readLn stdin
  if choice = "1" then
    let (lout, s1) := list_available_types s
    let (tn, r1) := readLn r0
    let (ok, lo2, s2) := load_type s1 tn
    if ok then
      let (ao, s3) := analyze_type env s2
      (.cont s3, show_menu_out ++ lout ++ lo2 ++ ao, r1)
    else
      (.cont s2, show_menu_out ++ lout ++ lo2, r1)
  else if choice = "2" then
    match s.current_type with
    | none =>
        let (tn, r1) := readLn r0
        let (ok, lo2, s2) := load_type s tn
        if ok then
          let (eo, s3) := show_examples s2
          (.cont s3, show_menu_out ++ lo2 ++ eo, r1)
        else
          (.cont s2, show_menu_out ++ lo2, r1)
    | some _ =>
        let (eo, s3) := show_examples s
        (.cont s3, show_menu_out ++ eo, r0)
  else if choice = "3" then
    match s.current_type with
    | none =>
        let (tn, r1) := readLn r0
        let (ok, lo2, s2) := load_type s tn
        if ok then
          let (mn, r2) := readLn r1
          let (io, s3) := inspect_method env s2 mn
          (.cont s3, show_menu_out ++ lo2 ++ io, r2)
        else
          (.cont s2, show_menu_out ++ lo2, r1)
    | some _ =>
        let (mn, r2) := readLn r0
        let (io, s3) := inspect_method env s mn
        (.cont s3, show_menu_out ++ io, r2)
  else if choice = "4" then
    let (lout, s1) := list_available_types s
    let (t1, r1) := readLn r0
    let (t2, r2) := readLn r1
    let (co, s2) := compare_types env s1 t1 t2
    (.cont s2, show_menu_out ++ lout ++ co, r2)
  else if choice = "5" then
    let (lout, s1) := list_available_types s
    (.cont s1, show_menu_out ++ lout, r0)
  else if choice = "6" then
    (.done,
     show_menu_out ++ ["\n👋 Thank you for using Built-in Type Inspector!", hline],
     r0)
  else
    (.cont s,
     show_menu_out ++ ["❌ Invalid choice. Please enter a number between 1 and 6."],
     r0)

/-- Banner printed at the top of `main` (lines 562-571). -/
def main_banner : List String :=
  ["\n" ++ hline, "🐍 PYTHON BUILT-IN DATA TYPES INSPECTOR", hline,
   "\n✨ FEATURES:",
   "  • Explore all built-in Python types",
   "  • Categorized methods (query, mutation, conversion, operators)",
   "  • Practical examples for each type",
   "  • Compare different types",
   "  • Detailed method inspection",
   "\n💡 TIP: This is perfect for learning Python\x27s core data structures!\n"]

/-- Result of the non-interactive part of `main`. -/
structure MainResult where
  out : List String
  state : InspectorState
  entered_menu : Bool
deriving DecidableEq, Repr

/-- Embedding of `main` (lines 560-584) up to, but not including, the
call to `interactive_mode`; `entered_menu` records whether
`interactive_mode()` is reached.  `args` is `sys.argv[1:]`.  When a
command-line type name fails to load, the `if inspector.load_type(...)`
guard fails and `main` falls through to `return`, ending the process
without entering the menu. -/
def main_start (env : TypeEnv) (args : List String) : MainResult :=
  match args with
  | [] => { out := main_banner, state := inspectorInit, entered_menu := true }
  | type_name :: _ =>
      let msg := "📦 Loading type from command line: " ++ type_name
      let (ok, lo, s1) := load_type inspectorInit type_name
      if ok then
        let (ao, s2) := analyze_type env s1
        let (eo, s3) := show_examples s2
        { out := main_banner ++ [msg] ++ lo ++ ao ++ eo, state := s3,
          entered_menu := true }
      else
        { out := main_banner ++ [msg] ++ lo, state := s1, entered_menu := false }

/-- A concrete reflection oracle used in witnesses: a minimal runtime in
which every attribute access fails and every listing is empty. -/
def envTrivial : TypeEnv :=
  { dirOf := fun _ => []
    callableOf := fun _ _ => false
    hasattrOf := fun _ _ => false
    getattrOk := fun _ _ => false
    sigOf := fun _ _ => none
    docOf := fun _ _ => none
    moduleOf := fun _ => "builtins"
    mroOf := fun _ => []
    typeDoc := fun _ => none
    typeReprOf := fun _ => "<class \x27type\x27>" }

/-- An inspector state with a type already loaded, used in witnesses. -/
def w2_state : InspectorState :=
  { inspectorInit with current_type := some PyType.int,
                       current_type_name := some "int" }

/-- An inspector state with a type that has no canned examples. -/
def w10_state : InspectorState :=
  { inspectorInit with current_type := some PyType.float,
                       current_type_name := some "float" }

/-- A small concrete type object used in witnesses. -/
def w1_obj : PyTypeObj :=
  ⟨["upper", "__repr__", "_private"], fun _ => true⟩

/-- A concrete type object whose only member is `__repr__`. -/
def w9_obj : PyTypeObj :=
  ⟨["__repr__"], fun _ => true⟩

lemma categorize_step_eq (t : PyTypeObj) (cats : MethodCategories)
    (name : String) :
    categorize_step t cats name =
      if method_eligible t name then cats.push (classify_method name) name
      else cats := by
  unfold categorize_step method_eligible classify_method MethodCategories.push
  cases hc : t.isCallable name <;>
    cases hp : pyStartsWith name "_" && !(pyStartsWith name "__" && pyEndsWith name "__") <;>
      simp [hc, hp]
  all_goals (split_ifs <;> rfl)

lemma mem_push_get (cats : MethodCategories) (c c' : MethodCategory)
    (name x : String) :
    x ∈ (cats.push c name).get c' ↔
      x ∈ cats.get c' ∨ (c' = c ∧ x = name) := by
  cases c <;> cases c' <;>
    simp [MethodCategories.push, MethodCategories.get, List.mem_append,
      or_comm]

lemma mem_foldl_categorize (t : PyTypeObj) (names : List String)
    (acc : MethodCategories) (c : MethodCategory) (x : String) :
    x ∈ (names.foldl (categorize_step t) acc).get c ↔
      x ∈ acc.get c ∨
        (x ∈ names ∧ method_eligible t x = true ∧ classify_method x = c) := by
  induction names generalizing acc with
  | nil => simp
  | cons n rest ih =>
      simp only [List.foldl_cons, ih, categorize_step_eq]
      by_cases he : method_eligible t n = true
      · simp only [he, if_pos rfl, if_true, mem_push_get]
        constructor
        · rintro (⟨h | ⟨hc, hx⟩⟩ | h)
          · exact Or.inl h
          · subst hx
            exact Or.inr ⟨List.mem_cons_self _ _, he, hc.symm⟩
          · rcases h with ⟨hm, h2, h3⟩
            exact Or.inr ⟨List.mem_cons_of_mem _ hm, h2, h3⟩
        · rintro (h | ⟨hm, h2, h3⟩)
          · exact Or.inl (Or.inl h)
          · rcases List.mem_cons.mp hm with rfl | hm'
            · exact Or.inl (Or.inr ⟨h3.symm, rfl⟩)
            · exact Or.inr ⟨hm', h2, h3⟩
      · rw [if_neg he]
        constructor
        · rintro (h | ⟨hm, h2, h3⟩)
          · exact Or.inl h
          · exact Or.inr ⟨List.mem_cons_of_mem _ hm, h2, h3⟩
        · rintro (h | ⟨hm, h2, h3⟩)
          · exact Or.inl h
          · rcases List.mem_cons.mp hm with rfl | hm'
            · exact absurd h2 he
            · exact Or.inr ⟨hm', h2, h3⟩

/-- Membership in a bucket of `categorize_methods`, characterised. -/
lemma mem_categorize (t : PyTypeObj) (c : MethodCategory) (x : String) :
    x ∈ (categorize_methods t).get c ↔
      x ∈ t.dirList ∧ method_eligible t x = true ∧ classify_method x = c := by
  unfold categorize_methods
  rw [mem_foldl_categorize]
  simp [emptyCategories, MethodCategories.get]
  cases c <;> simp [MethodCategories.get, emptyCategories]

lemma load_type_of_lookup_none {s : InspectorState} {n : String}
    (h : s.builtin_types.lookup n = none) :
    load_type s n =
      (false,
       ["❌ Error: \x27" ++ n ++ "\x27 is not a recognized built-in type",
        "   Available types: " ++
          String.intercalate ", " (sortedStrings (s.builtin_types.map Prod.fst))],
       s) := by
  unfold load_type
  rw [h]

lemma load_type_of_lookup_some {s : InspectorState} {n : String} {t : PyType}
    (h : s.builtin_types.lookup n = some t) :
    load_type s n =
      (true,
       ["✅ Successfully loaded type \x27" ++ n ++ "\x27"],
       { s with current_type := some t, current_type_name := some n }) := by
  unfold load_type
  rw [h]

lemma analyze_type_state (env : TypeEnv) (s : InspectorState) :
    (analyze_type env s).2 = s := by
  cases h : s.current_type <;> simp [analyze_type, h]

lemma show_examples_state (s : InspectorState) :
    (show_examples s).2 = s := by
  cases h : s.current_type <;> simp [show_examples, h]

lemma inspect_method_state (env : TypeEnv) (s : InspectorState) (m : String) :
    (inspect_method env s m).2 = s := by
  cases h : s.current_type
  · simp [inspect_method, h]
  · simp only [inspect_method, h]
    split <;> rfl

lemma compare_types_state (env : TypeEnv) (s : InspectorState) (n1 n2 : String) :
    (compare_types env s n1 n2).2 = s := by
  cases h1 : s.builtin_types.lookup n1 <;> cases h2 : s.builtin_types.lookup n2 <;>
    simp [compare_types, h1, h2]

lemma list_available_types_state (s : InspectorState) :
    (list_available_types s).2 = s := rfl

lemma load_type_builtin_types (s : InspectorState) (n : String) :
    (load_type s n).2.2.builtin_types = s.builtin_types := by
  cases h : s.builtin_types.lookup n
  · rw [load_type_of_lookup_none h]
  · rw [load_type_of_lookup_some h]

lemma pyStrip_one : pyStrip "1" = "1" := by decide

lemma pyStrip_three : pyStrip "3" = "3" := by decide

/-- C1: for every type object, the seven buckets of `categorize_methods`
are pairwise disjoint, their union is exactly the set of members of
`dir` that are callable and not single-underscore private (underscore
names are kept only when they both start and end with a double
underscore), and every eligible member lands in exactly one bucket. -/
theorem categorize_methods_partition (t : PyTypeObj) :
    (∀ c₁ c₂, c₁ ≠ c₂ → ∀ x, x ∈ (categorize_methods t).get c₁ →
        x ∉ (categorize_methods t).get c₂) ∧
    (∀ x, (∃ c, x ∈ (categorize_methods t).get c) ↔
        (x ∈ t.dirList ∧ method_eligible t x = true)) ∧
    (∀ x, x ∈ t.dirList → method_eligible t x = true →
        ∃! c, x ∈ (categorize_methods t).get c) := by
  refine ⟨?_, ?_, ?_⟩
  · intro c₁ c₂ hne x h1 h2
    rw [mem_categorize] at h1 h2
    exact hne (h1.2.2.symm.trans h2.2.2)
  · intro x
    constructor
    · rintro ⟨c, hc⟩
      rw [mem_categorize] at hc
      exact ⟨hc.1, hc.2.1⟩
    · rintro ⟨hd, he⟩
      exact ⟨classify_method x, (mem_categorize t _ x).mpr ⟨hd, he, rfl⟩⟩
  · intro x hd he
    refine ⟨classify_method x, (mem_categorize t _ x).mpr ⟨hd, he, rfl⟩, ?_⟩
    intro c hc
    rw [mem_categorize] at hc
    exact hc.2.2.symm

/-- Witness for C1 at a concrete type object and the member `upper`. -/
theorem categorize_methods_partition_witness :
    ∃! c, "upper" ∈ (categorize_methods w1_obj).get c :=
  (categorize_methods_partition w1_obj).2.2 "upper" (by decide) (by decide)

/-- C2: loading a name that is not a registry key returns `False`,
prints the failure message, and leaves the whole state (in particular
`current_type` and `current_type_name`) unchanged. -/
theorem load_type_unknown_rejected (s : InspectorState) (name : String)
    (h : s.builtin_types.lookup name = none) :
    (load_type s name).1 = false ∧
    (load_type s name).2.1.head? =
      some ("❌ Error: \x27" ++ name ++ "\x27 is not a recognized built-in type") ∧
    (load_type s name).2.2 = s := by
  rw [load_type_of_lookup_none h]
  exact ⟨rfl, rfl, rfl⟩

/-- Witness for C2 with a type already loaded and the name `wombat`. -/
theorem load_type_unknown_rejected_witness :
    (load_type w2_state "wombat").1 = false ∧
    (load_type w2_state "wombat").2.1.head? =
      some ("❌ Error: \x27" ++ "wombat" ++ "\x27 is not a recognized built-in type") ∧
    (load_type w2_state "wombat").2.2 = w2_state :=
  load_type_unknown_rejected w2_state "wombat" (by decide)

/-- C3: loading a registry key returns `True`, prints the success
message, and afterwards `current_type` is the registry handle for the
key and `current_type_name` is the key. -/
theorem load_type_known_succeeds (s : InspectorState) (name : String)
    (t : PyType) (h : s.builtin_types.lookup name = some t) :
    (load_type s name).1 = true ∧
    (load_type s name).2.1 =
      ["✅ Successfully loaded type \x27" ++ name ++ "\x27"] ∧
    (load_type s name).2.2.current_type = some t ∧
    (load_type s name).2.2.current_type_name = some name := by
  rw [load_type_of_lookup_some h]
  exact ⟨rfl, rfl, rfl, rfl⟩

/-- Witness for C3 at the registry key `str`. -/
theorem load_type_known_succeeds_witness :
    (load_type inspectorInit "str").1 = true ∧
    (load_type inspectorInit "str").2.1 =
      ["✅ Successfully loaded type \x27" ++ "str" ++ "\x27"] ∧
    (load_type inspectorInit "str").2.2.current_type = some PyType.str ∧
    (load_type inspectorInit "str").2.2.current_type_name = some "str" :=
  load_type_known_succeeds inspectorInit "str" PyType.str (by decide)

/-- C4 counterexample: with the unrecognized command-line argument
`notatype`, `main` prints the error message but never reaches
`interactive_mode`, so this error path ends the process instead of
returning control to the menu loop — refuting the claim for the
command-line input path. -/
theorem cli_unknown_type_skips_menu :
    ("❌ Error: \x27notatype\x27 is not a recognized built-in type")
      ∈ (main_start envTrivial ["notatype"]).out ∧
    (main_start envTrivial ["notatype"]).entered_menu = false :=
  ⟨by decide, by decide⟩

/-- C4 amended: inside the interactive menu loop an unrecognized type
name (choice 1) and an unrecognized method name (choice 3) each print a
message and the loop continues with the state unchanged; but an
unrecognized type name passed on the command line makes `main` return
without entering the menu loop, ending the process. -/
theorem error_cases_behavior (env : TypeEnv) (s : InspectorState)
    (t : PyType) (tn mn name : String) (rest : List String)
    (hload : s.builtin_types.lookup (pyStrip tn) = none)
    (ht : s.current_type = some t)
    (hmeth : env.hasattrOf t (pyStrip mn) = false)
    (hname : inspectorInit.builtin_types.lookup name = none) :
    ((menu_step env s ("1" :: tn :: rest)).1 = MenuOutcome.cont s ∧
     ("❌ Error: \x27" ++ pyStrip tn ++ "\x27 is not a recognized built-in type")
       ∈ (menu_step env s ("1" :: tn :: rest)).2.1) ∧
    ((menu_step env s ("3" :: mn :: rest)).1 = MenuOutcome.cont s ∧
     ("❌ Method \x27" ++ pyStrip mn ++ "\x27 not found in type \x27" ++
         (s.current_type_name.getD "None") ++ "\x27")
       ∈ (menu_step env s ("3" :: mn :: rest)).2.1) ∧
    (main_start env [name]).entered_menu = false := by
  refine ⟨?_, ?_, ?_⟩
  · simp only [menu_step, readLn, pyStrip_one, if_true]
    rw [list_available_types_state, load_type_of_lookup_none hload]
    simp
  · simp only [menu_step, readLn, pyStrip_three, ht, if_true]
    rw [if_neg (show ¬ ("3" : String) = "1" by decide),
        if_neg (show ¬ ("3" : String) = "2" by decide)]
    simp only [inspect_method, ht, hmeth]
    simp
  · simp only [main_start]
    rw [load_type_of_lookup_none hname]
    rfl

/-- Witness for C4 at concrete menu inputs and a concrete argument. -/
theorem error_cases_behavior_witness :
    ((menu_step envTrivial w2_state ("1" :: "zzz" :: [])).1 =
        MenuOutcome.cont w2_state ∧
     ("❌ Error: \x27" ++ pyStrip "zzz" ++ "\x27 is not a recognized built-in type")
       ∈ (menu_step envTrivial w2_state ("1" :: "zzz" :: [])).2.1) ∧
    ((menu_step envTrivial w2_state ("3" :: "nosuch" :: [])).1 =
        MenuOutcome.cont w2_state ∧
     ("❌ Method \x27" ++ pyStrip "nosuch" ++ "\x27 not found in type \x27" ++
         (w2_state.current_type_name.getD "None") ++ "\x27")
       ∈ (menu_step envTrivial w2_state ("3" :: "nosuch" :: [])).2.1) ∧
    (main_start envTrivial ["qqq"]).entered_menu = false :=
  error_cases_behavior envTrivial w2_state PyType.int "zzz" "nosuch" "qqq" []
    (by decide) rfl (by decide) (by decide)

/-- C5 counterexample: when `getattr(str, "conjugate")` fails,
`get_method_doc` returns `None` — not a placeholder string — refuting
the claim that the docstring failure result is a string. -/
theorem get_method_doc_failure_returns_none :
    envTrivial.getattrOk PyType.str "conjugate" = false ∧
    get_method_doc envTrivial PyType.str "conjugate" = none :=
  ⟨rfl, rfl⟩

/-- C5 amended: all reflection failures are suppressed.
`get_method_signature` returns the placeholder string `"(...)"` when
`getattr` or `inspect.signature` fails, and `get_method_doc` returns
Python `None` (no string) when `getattr` fails or no docstring is
available. -/
theorem reflection_failure_placeholders (env : TypeEnv) (t : PyType)
    (m : String) :
    (env.getattrOk t m = false → get_method_signature env t m = "(...)") ∧
    (env.getattrOk t m = true → env.sigOf t m = none →
       get_method_signature env t m = "(...)") ∧
    (env.getattrOk t m = false → get_method_doc env t m = none) ∧
    (env.getattrOk t m = true → env.docOf t m = none →
       get_method_doc env t m = none) := by
  refine ⟨fun h => ?_, fun h1 h2 => ?_, fun h => ?_, fun h1 h2 => ?_⟩
  · simp [get_method_signature, h]
  · simp [get_method_signature, h1, h2]
  · simp [get_method_doc, h]
  · simp [get_method_doc, h1, h2]

/-- Witness for C5 in the concrete failing runtime. -/
theorem reflection_failure_placeholders_witness :
    get_method_signature envTrivial PyType.str "upper" = "(...)" ∧
    get_method_doc envTrivial PyType.str "upper" = none :=
  ⟨(reflection_failure_placeholders envTrivial PyType.str "upper").1 rfl,
   (reflection_failure_placeholders envTrivial PyType.str "upper").2.2.1 rfl⟩

/-- C6 counterexample: invoked with the single argument `wibble`, the
program does not load a type (the load fails) and does not enter the
interactive menu, refuting the claim for unrecognized arguments. -/
theorem main_unknown_arg_no_menu :
    (load_type inspectorInit "wibble").1 = false ∧
    (main_start envTrivial ["wibble"]).entered_menu = false :=
  ⟨by decide, by decide⟩

/-- C6 amended: with no argument `main` enters the menu directly with a
fresh state; with a recognized type-name argument it loads the type,
prints its analysis and its examples, then enters the menu; with an
unrecognized argument it prints the error and returns without entering
the menu. -/
theorem main_start_paths (env : TypeEnv) (name : String) (t : PyType) :
    ((main_start env []).entered_menu = true ∧
     (main_start env []).state = inspectorInit ∧
     (main_start env []).out = main_banner) ∧
    (inspectorInit.builtin_types.lookup name = some t →
       (main_start env [name]).entered_menu = true ∧
       (main_start env [name]).state.current_type = some t ∧
       (main_start env [name]).state.current_type_name = some name ∧
       (main_start env [name]).out =
         main_banner ++ ["📦 Loading type from command line: " ++ name] ++
           ["✅ Successfully loaded type \x27" ++ name ++ "\x27"] ++
           (analyze_type env { inspectorInit with current_type := some t, current_type_name := some name }).1 ++
           (show_examples { inspectorInit with current_type := some t, current_type_name := some name }).1) ∧
    (inspectorInit.builtin_types.lookup name = none →
       (main_start env [name]).entered_menu = false) := by
  refine ⟨⟨rfl, rfl, rfl⟩, fun h => ?_, fun h => ?_⟩
  · simp only [main_start]
    rw [load_type_of_lookup_some h]
    refine ⟨rfl, ?_, ?_, ?_⟩
    · simp [analyze_type_state, show_examples_state]
    · simp [analyze_type_state, show_examples_state]
    · simp [analyze_type_state]
  · simp only [main_start]
    rw [load_type_of_lookup_none h]
    rfl

/-- Witness for C6 on the recognized command-line argument `int`. -/
theorem main_start_paths_witness :
    (main_start envTrivial ["int"]).entered_menu = true ∧
    (main_start envTrivial ["int"]).state.current_type = some PyType.int ∧
    (main_start envTrivial ["int"]).state.current_type_name = some "int" ∧
    (main_start envTrivial ["int"]).out =
      main_banner ++ ["📦 Loading type from command line: " ++ "int"] ++
        ["✅ Successfully loaded type \x27" ++ "int" ++ "\x27"] ++
        (analyze_type envTrivial { inspectorInit with current_type := some PyType.int, current_type_name := some "int" }).1 ++
        (show_examples { inspectorInit with current_type := some PyType.int, current_type_name := some "int" }).1 :=
  (main_start_paths envTrivial "int" PyType.int).2.1 (by decide)

/-- C7: the active-type fields are replaced only by a successful
`load_type`; `analyze_type`, `show_examples`, `inspect_method`,
`compare_types`, `list_available_types` and a failed `load_type` all
leave the state (hence `current_type` and `current_type_name`)
unchanged. -/
theorem active_type_frame (env : TypeEnv) (s : InspectorState)
    (m n1 n2 tn : String) :
    (analyze_type env s).2 = s ∧
    (show_examples s).2 = s ∧
    (inspect_method env s m).2 = s ∧
    (compare_types env s n1 n2).2 = s ∧
    (list_available_types s).2 = s ∧
    ((load_type s tn).1 = false → (load_type s tn).2.2 = s) := by
  refine ⟨analyze_type_state env s, show_examples_state s,
    inspect_method_state env s m, compare_types_state env s n1 n2,
    list_available_types_state s, fun hf => ?_⟩
  cases h : s.builtin_types.lookup tn with
  | none => rw [load_type_of_lookup_none h]
  | some t =>
      rw [load_type_of_lookup_some h] at hf
      exact absurd hf (by simp)

/-- Witness for C7 at a concrete loaded state and concrete arguments. -/
theorem active_type_frame_witness :
    (analyze_type envTrivial w2_state).2 = w2_state ∧
    (show_examples w2_state).2 = w2_state ∧
    (inspect_method envTrivial w2_state "upper").2 = w2_state ∧
    (compare_types envTrivial w2_state "str" "list").2 = w2_state ∧
    (list_available_types w2_state).2 = w2_state ∧
    (load_type w2_state "bogus").2.2 = w2_state := by
  have h := active_type_frame envTrivial w2_state "upper" "str" "list" "bogus"
  exact ⟨h.1, h.2.1, h.2.2.1, h.2.2.2.1, h.2.2.2.2.1, h.2.2.2.2.2 (by decide)⟩

/-- C8: the registry built at initialization has exactly the 17
supported keys (pairwise distinct), and no operation changes the
registry; the operator display table and the example table are the
fixed literals of the source (their key lists are stated). -/
theorem registry_seventeen_and_static (env : TypeEnv) (s : InspectorState)
    (m n1 n2 tn : String) :
    inspectorInit.builtin_types.map Prod.fst =
      ["str", "int", "float", "complex", "list", "tuple", "dict", "set",
       "frozenset", "bool", "bytes", "bytearray", "memoryview", "range",
       "slice", "type", "object"] ∧
    (inspectorInit.builtin_types.map Prod.fst).length = 17 ∧
    (inspectorInit.builtin_types.map Prod.fst).Nodup ∧
    (load_type s tn).2.2.builtin_types = s.builtin_types ∧
    (analyze_type env s).2.builtin_types = s.builtin_types ∧
    (show_examples s).2.builtin_types = s.builtin_types ∧
    (inspect_method env s m).2.builtin_types = s.builtin_types ∧
    (compare_types env s n1 n2).2.builtin_types = s.builtin_types ∧
    (list_available_types s).2.builtin_types = s.builtin_types ∧
    operator_map.map Prod.fst = operator_dunders ∧
    examples.map Prod.fst = ["str", "list", "dict", "set", "int", "tuple"] := by
  refine ⟨rfl, rfl, by decide, load_type_builtin_types s tn,
    ?_, ?_, ?_, ?_, rfl, rfl, rfl⟩
  · rw [analyze_type_state]
  · rw [show_examples_state]
  · rw [inspect_method_state]
  · rw [compare_types_state]

/-- C9: every callable dunder member whose name starts with `__r` —
other than the constructor names — is put in the operators bucket and
never in the magic-methods bucket; in particular this captures
`__repr__`, `__reduce__` and `__reduce_ex__`. -/
theorem reverse_dunders_are_operators (t : PyTypeObj) (name : String)
    (hdir : name ∈ t.dirList) (helig : method_eligible t name = true)
    (h2 : pyStartsWith name "__" = true)
    (hr : pyStartsWith name "__r" = true)
    (he : pyEndsWith name "__" = true)
    (hc : name ∉ constructor_names) :
    name ∈ (categorize_methods t).operators ∧
      name ∉ (categorize_methods t).magic_methods := by
  have hclass : classify_method name = MethodCategory.operators := by
    unfold classify_method
    rw [if_pos (show (pyStartsWith name "__" && pyEndsWith name "__") = true by
          rw [h2, he]; rfl),
        if_neg hc,
        if_pos (show (pyStartsWith name "__r" && pyEndsWith name "__") = true by
          rw [hr, he]; rfl)]
  have hmem : name ∈ (categorize_methods t).get MethodCategory.operators :=
    (mem_categorize t MethodCategory.operators name).mpr ⟨hdir, helig, hclass⟩
  refine ⟨hmem, fun hbad => ?_⟩
  have hm : name ∈ (categorize_methods t).get MethodCategory.magic_methods := hbad
  have h := (mem_categorize t MethodCategory.magic_methods name).mp hm
  exact absurd (hclass.symm.trans h.2.2) (by decide)

/-- Witness for C9 at `__repr__` on a concrete type object. -/
theorem reverse_dunders_are_operators_witness :
    "__repr__" ∈ (categorize_methods w9_obj).operators ∧
      "__repr__" ∉ (categorize_methods w9_obj).magic_methods :=
  reverse_dunders_are_operators w9_obj "__repr__" (by decide) (by decide)
    (by decide) (by decide) (by decide) (by decide)

/-- C10: the example table has exactly the six keys `str`, `list`,
`dict`, `set`, `int`, `tuple`; for any loaded type whose name is not
among them, `show_examples` prints exactly the fallback line and
returns normally with the state unchanged; 11 of the 17 registry keys
have no example text. -/
theorem examples_six_keys_fallback (s : InspectorState) (t : PyType)
    (name : String) (h1 : s.current_type = some t)
    (h2 : s.current_type_name = some name)
    (h3 : examples.lookup name = none) :
    examples.map Prod.fst = ["str", "list", "dict", "set", "int", "tuple"] ∧
    (show_examples s).1 = ["No examples available for " ++ name] ∧
    (show_examples s).2 = s ∧
    ((inspectorInit.builtin_types.map Prod.fst).filter
        (fun n => (examples.lookup n).isNone)).length = 11 := by
  refine ⟨rfl, ?_, show_examples_state s, by decide⟩
  simp only [show_examples, h1, h2]
  simp [h3]

/-- Witness for C10 at the loaded type `float`. -/
theorem examples_six_keys_fallback_witness :
    examples.map Prod.fst = ["str", "list", "dict", "set", "int", "tuple"] ∧
    (show_examples w10_state).1 = ["No examples available for " ++ "float"] ∧
    (show_examples w10_state).2 = w10_state ∧
    ((inspectorInit.builtin_types.map Prod.fst).filter
        (fun n => (examples.lookup n).isNone)).length = 11 :=
  examples_six_keys_fallback w10_state PyType.float "float" rfl rfl (by decide)
